import Mathlib

/-!
# August-server: enrollment and key-exchange handlers

A shallow embedding of `internals/models/Device.go`, `internals/utils/helpers.go`
and `internals/handlers/ApiHandlers.go`.

* A MongoDB client is a map from database names to databases; a database holds the
  `devices` collection and the `wrappedKeys` collection, each a list of documents in
  insertion order.
* `UpdateOne` with a `deviceId` equality filter rewrites the first matching document;
  with the upsert option it inserts a document built from the filter when none matches.
* A gin context is the header list of the request together with the outcome of
  `ShouldBindJSON` for the request type of the handler.
* Everything a handler reads from outside the request and the store (the clock, the
  object id generated for an inserted document, the outcome of `rsa.GenerateKey`,
  failures of storage round-trips) is an explicit `Env` argument.
-/

namespace August

/-! ## models/Device.go -/

/-- An instant (`time.Time`), in nanoseconds since the Unix epoch. -/
abbrev Time := Int

/-- A `primitive.ObjectID`. -/
abbrev ObjectID := Nat

/-- Go struct `GeoInfo`. -/
structure GeoInfo where
  IP : String
  City : String
  Region : String
  Country : String
  deriving DecidableEq, Repr

/-- The anonymous `{total, used, proc}` struct of `HeartbeatRequest.Mem` and
`Device.Memory` (three `uint64` values, stored as they are). -/
structure MemInfo where
  Total : Nat
  Used : Nat
  Proc : Nat
  deriving DecidableEq, Repr

/-- Go struct `DeviceInfo`. -/
structure DeviceInfo where
  Hostname : String
  Username : String
  OS : String
  Architecture : String
  NumCPU : Int
  GoVersion : String
  CurrentTime : Time
  WorkingDir : String
  Geo : GeoInfo
  EnvVars : List String
  WrappedAES : Option String
  PublicKey : String
  PrivateKey : String
  deriving DecidableEq, Repr

/-- Go struct `HeartbeatRequest`. -/
structure HeartbeatRequest where
  Geo : GeoInfo
  Uptime : String
  Mem : MemInfo
  Nonce : String
  deriving DecidableEq, Repr

/-- Go struct `DeviceRegistrationRequest` (`DeviceInfo` is embedded). -/
structure DeviceRegistrationRequest where
  DeviceID : String
  PersistentID : String
  Info : DeviceInfo
  deriving DecidableEq, Repr

/-- A decoded JSON value held in a Go `any`; only the dynamic type and, for strings,
the value matter to the handlers. -/
inductive AnyValue where
  | null
  | bool (b : Bool)
  | number (n : Int)
  | string (s : String)
  | array
  | object
  deriving DecidableEq, Repr

/-- Go struct `KeyExfiltrationRequest`; `Data` is a `map[string]any`, nil when the
body has no `data` member. -/
structure KeyExfiltrationRequest where
  DeviceId : String
  Timestamp : Option Time
  Data : Option (List (String × AnyValue))
  deriving DecidableEq, Repr

/-- Go struct `WrappedKeyDoc`: one document of the `wrappedKeys` collection. -/
structure WrappedKeyDoc where
  ID : ObjectID
  DeviceID : String
  WrappedKey : String
  Timestamp : Time
  ClientVersion : String
  RequestType : String
  ReceivedAt : Time
  AssociatedTo : ObjectID
  deriving DecidableEq, Repr

/-- Go struct `Device` (with `DeviceInfo` inlined): one document of the `devices`
collection. Fields with `omitempty` pointer types are optional. -/
structure Device where
  ID : ObjectID
  DeviceID : String
  PersistentID : String
  Hostname : String
  Username : String
  OS : String
  Architecture : String
  NumCPU : Int
  GoVersion : String
  CurrentTime : Time
  WorkingDir : String
  Geo : GeoInfo
  EnvVars : List String
  WrappedAES : Option String
  PublicKey : String
  PrivateKey : String
  LastSeen : Time
  RegisteredAt : Time
  CreatedAt : Time
  Online : Bool
  HeartbeatCount : Int
  ConnectionCount : Int
  LastUpdateAt : Option Time
  LastNonce : String
  Memory : Option MemInfo
  Uptime : String
  LastKeyUpdate : Option Time
  deriving DecidableEq, Repr

/-! ## The document store -/

/-- One MongoDB database: the `devices` and `wrappedKeys` collections. -/
structure Database where
  devices : List Device
  wrappedKeys : List WrappedKeyDoc
  deriving DecidableEq, Repr

/-- A `*mongo.Client`: the databases it gives access to, by name. -/
abbrev MongoClient := String → Database

/-- The client all of whose databases are empty. -/
def emptyClient : MongoClient := fun _ => { devices := [], wrappedKeys := [] }

/-- The client after the `devices` collection of database `dbName` became `ds`. -/
def setDevices (client : MongoClient) (dbName : String) (ds : List Device) : MongoClient :=
  fun n => if n = dbName then { client n with devices := ds } else client n

/-- The client after the `wrappedKeys` collection of database `dbName` became `ks`. -/
def setWrappedKeys (client : MongoClient) (dbName : String) (ks : List WrappedKeyDoc) :
    MongoClient :=
  fun n => if n = dbName then { client n with wrappedKeys := ks } else client n

/-- The document an upsert starts from when the filter `{deviceId: deviceID}` matches
nothing: the generated `_id`, the equality field of the filter, and every other field
absent (its zero value). -/
def blankDevice (oid : ObjectID) (deviceID : String) : Device :=
  { ID := oid, DeviceID := deviceID, PersistentID := "", Hostname := "", Username := "",
    OS := "", Architecture := "", NumCPU := 0, GoVersion := "", CurrentTime := 0,
    WorkingDir := "", Geo := { IP := "", City := "", Region := "", Country := "" },
    EnvVars := [], WrappedAES := none, PublicKey := "", PrivateKey := "", LastSeen := 0,
    RegisteredAt := 0, CreatedAt := 0, Online := false, HeartbeatCount := 0,
    ConnectionCount := 0, LastUpdateAt := none, LastNonce := "", Memory := none,
    Uptime := "", LastKeyUpdate := none }

/-- An update document: the effect of its `$set`, `$setOnInsert` and `$inc` parts on a
device document. -/
structure Update where
  set : Device → Device
  setOnInsert : Device → Device
  inc : Device → Device

/-- The filter `bson.M{"deviceId": deviceID}`. -/
def matchesDeviceId (deviceID : String) (d : Device) : Bool :=
  d.DeviceID == deviceID

/-- The lookup `FindOne(ctx, bson.M{"deviceId": deviceID})`: the first matching document. -/
def findOne (coll : List Device) (deviceID : String) : Option Device :=
  coll.find? (matchesDeviceId deviceID)

/-- Rewrite the first document that satisfies `p`. -/
def updateFirst (p : Device → Bool) (f : Device → Device) : List Device → List Device
  | [] => []
  | d :: ds => if p d then f d :: ds else d :: updateFirst p f ds

/-- The effect of `UpdateOne(ctx, bson.M{"deviceId": deviceID}, update, opts)` on a
collection that answers: the first match gets `$set` and `$inc`; without a match nothing
changes, unless `upsert` is set, in which case the document built from the filter gets
`$set`, `$setOnInsert` and `$inc` and is inserted. -/
def applyUpdateOne (coll : List Device) (deviceID : String) (u : Update) (upsert : Bool)
    (oid : ObjectID) : List Device :=
  match findOne coll deviceID with
  | some _ => updateFirst (matchesDeviceId deviceID) (fun d => u.inc (u.set d)) coll
  | none =>
    if upsert then coll ++ [u.inc (u.setOnInsert (u.set (blankDevice oid deviceID)))]
    else coll

/-- The effect of `InsertOne(ctx, keyDoc)` on a collection that answers. -/
def applyInsertOne (coll : List WrappedKeyDoc) (doc : WrappedKeyDoc) : List WrappedKeyDoc :=
  coll ++ [doc]

/-! ## The environment of one handler run -/

/-- An `rsa.PublicKey`. -/
structure RSAPublicKey where
  N : Nat
  E : Nat
  deriving DecidableEq, Repr

/-- An `rsa.PrivateKey`: the public half and the private exponent and primes. -/
structure RSAPrivateKey where
  PublicKey : RSAPublicKey
  D : Nat
  Primes : List Nat
  deriving DecidableEq, Repr

/-- The standard-library primitives used by `helpers.go`. -/
structure Crypto where
  /-- The method `(*rsa.PrivateKey).Validate`: `true` when it returns a nil error. -/
  validate : RSAPrivateKey → Bool
  /-- The function `x509.MarshalPKIXPublicKey`; `none` when it returns an error. -/
  marshalPKIXPublicKey : RSAPublicKey → Option (List Nat)
  /-- The function `x509.MarshalPKCS1PrivateKey`. -/
  marshalPKCS1PrivateKey : RSAPrivateKey → List Nat
  /-- The function `pem.EncodeToMemory` on a block with the given type and bytes. -/
  pemEncodeToMemory : String → List Nat → String

/-- What one handler run obtains from outside the request and the store. -/
structure Env where
  /-- The value of the `k`-th evaluation of `time.Now()` in the run. -/
  now : Nat → Time
  /-- The `_id` generated for a document inserted in the run. -/
  newObjectID : ObjectID
  /-- The result of `rsa.GenerateKey(rand.Reader, 2048)`; `none` on error. -/
  generatedKey : Option RSAPrivateKey
  /-- Whether the `k`-th storage round-trip of the run returns an error other than
  `mongo.ErrNoDocuments` (unreachable store, expired timeout context). -/
  storageFails : Nat → Bool

/-! ## The gin context and the responses -/

/-- A `*gin.Context` as the handlers use it: the request headers and the outcome of
`ShouldBindJSON` into the request type `β` (`none` when it returns an error). -/
structure GinContext (β : Type) where
  headers : List (String × String)
  bindJSON : Option β

/-- The call `gctx.GetHeader(key)`: the header value, or the empty string when it is absent. -/
def GetHeader {β : Type} (gctx : GinContext β) (key : String) : String :=
  (gctx.headers.lookup key).getD ""

/-- The response bodies the handlers write. -/
inductive Body where
  /-- The body `gin.H{"error": msg}`. -/
  | error (msg : String)
  /-- The body `gin.H{"status": msg}`. -/
  | status (msg : String)
  /-- The registration response: `status` and the `config` block. -/
  | registration (status : String) (heartbeat_interval : Int) (initial_delay : Int)
      (max_delay : Int) (backoff_factor : Int) (max_retries : Int) (next_checkin : Int)
  /-- The body `gin.H{"status": msg, "next": next}`. -/
  | exfiltration (status : String) (next : Int)
  /-- A raw body written by `gctx.Data`. -/
  | data (bytes : String)
  deriving DecidableEq, Repr

/-- A written HTTP response. -/
structure Response where
  status : Nat
  contentType : String
  body : Body
  deriving DecidableEq, Repr

/-- The call `gctx.JSON(code, body)`. -/
def JSON (code : Nat) (body : Body) : Response :=
  { status := code, contentType := "application/json; charset=utf-8", body := body }

/-- The call `gctx.Data(code, contentType, data)`. -/
def Data (code : Nat) (contentType : String) (data : String) : Response :=
  { status := code, contentType := contentType, body := Body.data data }

/-- Status `http.StatusOK`. -/
def StatusOK : Nat := 200
/-- Status `http.StatusBadRequest`. -/
def StatusBadRequest : Nat := 400
/-- Status `http.StatusNotFound`. -/
def StatusNotFound : Nat := 404
/-- Status `http.StatusInternalServerError`. -/
def StatusInternalServerError : Nat := 500

/-- The opaque error marker. -/
def ErrorResponse : String := "💀"
/-- The heartbeat acknowledgement. -/
def HeartbeatMsg : String :=
  "The last man on Earth sat in the dark room and there was a knock on the door"
/-- The registration acknowledgement. -/
def RegistrationMsg : String := "The owls are not what they seem"
/-- The key-submission acknowledgement. -/
def ExfiltrationMsg : String := "The door is now locked"

/-- The instant `t.Add(d)` for a duration `d` in nanoseconds. -/
def timeAdd (t : Time) (d : Int) : Time := t + d

/-- The value `t.Unix()`: whole seconds since the epoch. -/
def timeUnix (t : Time) : Int := t / 1000000000

/-- Duration `time.Minute`. -/
def Minute : Int := 60 * 1000000000
/-- Duration `time.Hour`. -/
def Hour : Int := 60 * Minute

/-! ## utils/helpers.go -/

/-- Function `ValidateDeviceID`: the `X-Device-ID` header, or the 400 response written when it is
empty. -/
def ValidateDeviceID {β : Type} (gctx : GinContext β) : Except Response String :=
  let deviceID := GetHeader gctx "X-Device-ID"
  if deviceID = "" then
    .error (JSON StatusBadRequest (Body.error ErrorResponse))
  else
    .ok deviceID

/-- Function `GetDevicesCollection(client, dbName)`. -/
def GetDevicesCollection (client : MongoClient) (dbName : String) : List Device :=
  (client dbName).devices

/-- Function `GenerateRSAKeyPair`: the generated key, unless generation or `Validate` fails. -/
def GenerateRSAKeyPair (crypto : Crypto) (env : Env) : Option RSAPrivateKey :=
  match env.generatedKey with
  | none => none
  | some privateKey => if crypto.validate privateKey then some privateKey else none

/-- Function `MarshalPublicKeyToPEM`. -/
def MarshalPublicKeyToPEM (crypto : Crypto) (publicKey : RSAPublicKey) : Option String :=
  match crypto.marshalPKIXPublicKey publicKey with
  | none => none
  | some publicKeyBytes => some (crypto.pemEncodeToMemory "RSA PUBLIC KEY" publicKeyBytes)

/-- Function `MarshalPrivateKeyToPEM`. -/
def MarshalPrivateKeyToPEM (crypto : Crypto) (privateKey : RSAPrivateKey) : String :=
  crypto.pemEncodeToMemory "RSA PRIVATE KEY" (crypto.marshalPKCS1PrivateKey privateKey)

/-! ## Storage round-trips -/

/-- One `UpdateOne` round-trip on the `devices` collection: `none` when it returns an
error (the collection is then as before), else the collection after the update. The
counters are unbounded integers here; an `$inc` that the store rejects because the result
does not fit 64 bits is one of the errors. -/
def UpdateOne (fails : Bool) (coll : List Device) (deviceID : String) (u : Update)
    (upsert : Bool) (oid : ObjectID) : Option (List Device) :=
  if fails then none else some (applyUpdateOne coll deviceID u upsert oid)

/-- One `InsertOne` round-trip on the `wrappedKeys` collection: `none` when it returns
an error, else the collection after the insertion. -/
def InsertOne (fails : Bool) (coll : List WrappedKeyDoc) (doc : WrappedKeyDoc) :
    Option (List WrappedKeyDoc) :=
  if fails then none else some (applyInsertOne coll doc)

/-- The outcome of `FindOne(...).Decode(&existingDevice)`. -/
inductive FindResult where
  /-- A document was decoded. -/
  | found (d : Device)
  /-- The error is `mongo.ErrNoDocuments`. -/
  | noDocuments
  /-- Any other error. -/
  | failed
  deriving DecidableEq, Repr

/-- One `FindOne` round-trip on the `devices` collection. -/
def FindOne (fails : Bool) (coll : List Device) (deviceID : String) : FindResult :=
  if fails then .failed
  else match findOne coll deviceID with
    | some d => .found d
    | none => .noDocuments

/-! ## handlers/ApiHandlers.go -/

/-- The update document of `HandlerRSAGeneration`. -/
def keyUpdate (publicKeyPEM privateKeyPEM : String) (env : Env) : Update :=
  { set := fun d => { d with
      PublicKey := publicKeyPEM,
      PrivateKey := privateKeyPEM,
      LastKeyUpdate := some (env.now 0) },
    setOnInsert := id,
    inc := id }

/-- The update document of `HandleHeartbeat`. -/
def heartbeatUpdate (request : HeartbeatRequest) (env : Env) : Update :=
  { set := fun d => { d with
      LastSeen := env.now 0,
      Geo := request.Geo,
      Uptime := request.Uptime,
      Memory := some request.Mem,
      LastNonce := request.Nonce,
      LastUpdateAt := some (env.now 1) },
    setOnInsert := id,
    inc := fun d => { d with HeartbeatCount := d.HeartbeatCount + 1 } }

/-- The `deviceDoc` of `HandleDeviceRegistration`, as the effect of `$set`-ting it. -/
def deviceDoc (deviceID : String) (request : DeviceRegistrationRequest) (env : Env) :
    Device → Device :=
  fun d => { d with
    DeviceID := deviceID,
    PersistentID := request.PersistentID,
    Hostname := request.Info.Hostname,
    Username := request.Info.Username,
    OS := request.Info.OS,
    Architecture := request.Info.Architecture,
    NumCPU := request.Info.NumCPU,
    GoVersion := request.Info.GoVersion,
    CurrentTime := request.Info.CurrentTime,
    WorkingDir := request.Info.WorkingDir,
    Geo := request.Info.Geo,
    EnvVars := request.Info.EnvVars,
    WrappedAES := some "",
    PublicKey := "",
    PrivateKey := "",
    LastSeen := env.now 0,
    RegisteredAt := env.now 1,
    Online := true }

/-- The update document of `HandleDeviceRegistration`. -/
def registrationUpdate (deviceID : String) (request : DeviceRegistrationRequest)
    (env : Env) : Update :=
  { set := deviceDoc deviceID request env,
    setOnInsert := fun d => { d with
      CreatedAt := env.now 2,
      HeartbeatCount := 0 },
    inc := fun d => { d with ConnectionCount := d.ConnectionCount + 1 } }

/-- The value `request.Data["wrappedKey"]`: `none` when the map is nil or lacks the key. -/
def wrappedKeyField (request : KeyExfiltrationRequest) : Option AnyValue :=
  (request.Data.getD []).lookup "wrappedKey"

/-- The `keyDoc` of `HandleKeyExfiltration`. -/
def keyDoc (gctx : GinContext KeyExfiltrationRequest) (env : Env) (deviceID : String)
    (wrappedKey : String) (existingDevice : Device) : WrappedKeyDoc :=
  { ID := env.newObjectID,
    DeviceID := deviceID,
    WrappedKey := wrappedKey,
    Timestamp := env.now 0,
    ClientVersion := GetHeader gctx "X-Client-Version",
    RequestType := GetHeader gctx "R-Type",
    ReceivedAt := env.now 1,
    AssociatedTo := existingDevice.ID }

/-- The `updateDoc` of `HandleKeyExfiltration`. -/
def updateDoc (wrappedKey : String) (env : Env) : Update :=
  { set := fun d => { d with
      LastSeen := env.now 2,
      WrappedAES := some wrappedKey },
    setOnInsert := id,
    inc := id }

/-- Handler `HandlerRSAGeneration`; `APP_NAME` is `consts.APP_NAME`. Returns the written
response and the client after the run. -/
def HandlerRSAGeneration {β : Type} (crypto : Crypto) (APP_NAME : String)
    (client : MongoClient) (gctx : GinContext β) (env : Env) : Response × MongoClient :=
  match ValidateDeviceID gctx with
  | .error resp => (resp, client)
  | .ok deviceID =>
    match GenerateRSAKeyPair crypto env with
    | none => (JSON StatusInternalServerError (Body.error ErrorResponse), client)
    | some privateKey =>
      match MarshalPublicKeyToPEM crypto privateKey.PublicKey with
      | none => (JSON StatusInternalServerError (Body.error ErrorResponse), client)
      | some publicKeyPEM =>
        let privateKeyPEM := MarshalPrivateKeyToPEM crypto privateKey
        let devices := GetDevicesCollection client APP_NAME
        let update := keyUpdate publicKeyPEM privateKeyPEM env
        match UpdateOne (env.storageFails 0) devices deviceID update false env.newObjectID with
        | none => (JSON StatusInternalServerError (Body.error ErrorResponse), client)
        | some devices' =>
          (Data StatusOK "application/x-pem-file" publicKeyPEM,
            setDevices client APP_NAME devices')

/-- Handler `HandleHeartbeat`; `APP_NAME` is `consts.APP_NAME`. -/
def HandleHeartbeat (APP_NAME : String) (client : MongoClient)
    (gctx : GinContext HeartbeatRequest) (env : Env) : Response × MongoClient :=
  match ValidateDeviceID gctx with
  | .error resp => (resp, client)
  | .ok deviceID =>
    match gctx.bindJSON with
    | none => (JSON StatusBadRequest (Body.error ErrorResponse), client)
    | some request =>
      let devices := GetDevicesCollection client APP_NAME
      let update := heartbeatUpdate request env
      match UpdateOne (env.storageFails 0) devices deviceID update false env.newObjectID with
      | none => (JSON StatusInternalServerError (Body.error ErrorResponse), client)
      | some devices' =>
        (JSON StatusOK (Body.status HeartbeatMsg), setDevices client APP_NAME devices')

/-- Handler `HandleDeviceRegistration`; `APP_NAME` is `consts.APP_NAME`. -/
def HandleDeviceRegistration (APP_NAME : String) (client : MongoClient)
    (gctx : GinContext DeviceRegistrationRequest) (env : Env) : Response × MongoClient :=
  match ValidateDeviceID gctx with
  | .error resp => (resp, client)
  | .ok deviceID =>
    match gctx.bindJSON with
    | none => (JSON StatusBadRequest (Body.error ErrorResponse), client)
    | some request =>
      let devices := GetDevicesCollection client APP_NAME
      let update := registrationUpdate deviceID request env
      match UpdateOne (env.storageFails 0) devices deviceID update true env.newObjectID with
      | none => (JSON StatusInternalServerError (Body.error ErrorResponse), client)
      | some devices' =>
        let response := Body.registration RegistrationMsg 300 10 300 2 5
          (timeUnix (timeAdd (env.now 3) (5 * Minute)))
        (JSON StatusOK response, setDevices client APP_NAME devices')

/-- Handler `HandleKeyExfiltration` for the database `dbName`. -/
def HandleKeyExfiltration (dbName : String) (client : MongoClient)
    (gctx : GinContext KeyExfiltrationRequest) (env : Env) : Response × MongoClient :=
  match ValidateDeviceID gctx with
  | .error resp => (resp, client)
  | .ok deviceID =>
    let devices := GetDevicesCollection client dbName
    match FindOne (env.storageFails 0) devices deviceID with
    | .noDocuments => (JSON StatusNotFound (Body.error "Device not registered"), client)
    | .failed => (JSON StatusInternalServerError (Body.error ErrorResponse), client)
    | .found existingDevice =>
      match gctx.bindJSON with
      | none => (JSON StatusBadRequest (Body.error ErrorResponse), client)
      | some request =>
        match wrappedKeyField request with
        | some (AnyValue.string wrappedKey) =>
          if wrappedKey = "" then
            (JSON StatusBadRequest (Body.error ErrorResponse), client)
          else
            let keysCollection := (client dbName).wrappedKeys
            match InsertOne (env.storageFails 1) keysCollection
                (keyDoc gctx env deviceID wrappedKey existingDevice) with
            | none => (JSON StatusInternalServerError (Body.error ErrorResponse), client)
            | some keys' =>
              let client1 := setWrappedKeys client dbName keys'
              let client2 :=
                match UpdateOne (env.storageFails 2) (GetDevicesCollection client1 dbName)
                    deviceID (updateDoc wrappedKey env) false env.newObjectID with
                | none => client1
                | some devices' => setDevices client1 dbName devices'
              (JSON StatusOK (Body.exfiltration ExfiltrationMsg
                (timeUnix (timeAdd (env.now 3) (1 * Hour)))), client2)
        | _ => (JSON StatusBadRequest (Body.error ErrorResponse), client)

/-! ## The four operations as a transition system -/

/-- One request to one of the four endpoints, with the environment of its run. The
key-submission handler carries the database name it was constructed with. -/
inductive Call where
  | register (gctx : GinContext DeviceRegistrationRequest) (env : Env)
  | provisionKeys (gctx : GinContext Unit) (env : Env)
  | heartbeat (gctx : GinContext HeartbeatRequest) (env : Env)
  | submitWrappedKey (dbName : String) (gctx : GinContext KeyExfiltrationRequest) (env : Env)

/-- Serve one call on a client. -/
def serve (crypto : Crypto) (APP_NAME : String) (client : MongoClient) :
    Call → Response × MongoClient
  | .register gctx env => HandleDeviceRegistration APP_NAME client gctx env
  | .provisionKeys gctx env => HandlerRSAGeneration crypto APP_NAME client gctx env
  | .heartbeat gctx env => HandleHeartbeat APP_NAME client gctx env
  | .submitWrappedKey dbName gctx env => HandleKeyExfiltration dbName client gctx env

/-- The clients reachable from the empty client by serving calls one after another. -/
inductive Reachable (crypto : Crypto) (APP_NAME : String) : MongoClient → Prop where
  | empty : Reachable crypto APP_NAME emptyClient
  | serve (client : MongoClient) (call : Call) :
      Reachable crypto APP_NAME client →
      Reachable crypto APP_NAME (serve crypto APP_NAME client call).2

/-- Serve a sequence of registration requests, each with its own environment, one after
another; the client after the last one. -/
def registerAll (APP_NAME : String) (client : MongoClient) :
    List (GinContext DeviceRegistrationRequest × Env) → MongoClient
  | [] => client
  | (gctx, env) :: rest =>
    registerAll APP_NAME (HandleDeviceRegistration APP_NAME client gctx env).2 rest

/-- The documents of a collection whose `deviceId` is `deviceID`. -/
def devicesWithId (coll : List Device) (deviceID : String) : List Device :=
  coll.filter (matchesDeviceId deviceID)

/-- No two documents of the collection share a `deviceId`. -/
def UniqueDeviceIds (coll : List Device) : Prop :=
  (coll.map (fun d => d.DeviceID)).Nodup

/-! ## Sample data -/

/-- A toy instance of the standard-library primitives. -/
def sampleCrypto : Crypto :=
  { validate := fun k => k.Primes.prod == k.PublicKey.N,
    marshalPKIXPublicKey := fun k => some [k.N, k.E],
    marshalPKCS1PrivateKey := fun k => [k.PublicKey.N, k.PublicKey.E, k.D],
    pemEncodeToMemory := fun t bytes =>
      t ++ String.mk (bytes.map (fun b => Char.ofNat (65 + b % 26))) }

/-- A sample key: `N = 61 * 53`, `E = 17`, `D = 2753`. -/
def sampleKey : RSAPrivateKey :=
  { PublicKey := { N := 3233, E := 17 }, D := 2753, Primes := [61, 53] }

/-- A run in which the store answers, the clock starts at `t0` and key generation
yields `sampleKey`. -/
def sampleEnv (t0 : Time) (oid : ObjectID) : Env :=
  { now := fun k => t0 + k,
    newObjectID := oid,
    generatedKey := some sampleKey,
    storageFails := fun _ => false }

/-- A sample identity snapshot. -/
def sampleInfo : DeviceInfo :=
  { Hostname := "host1", Username := "user", OS := "linux", Architecture := "amd64",
    NumCPU := 4, GoVersion := "go1.21", CurrentTime := 5, WorkingDir := "/",
    Geo := { IP := "10.0.0.1", City := "c", Region := "r", Country := "k" },
    EnvVars := ["A=1"], WrappedAES := none, PublicKey := "", PrivateKey := "" }

/-- A registration request for the device `abc123`. -/
def sampleRegister : GinContext DeviceRegistrationRequest :=
  { headers := [("X-Device-ID", "abc123")],
    bindJSON := some { DeviceID := "abc123", PersistentID := "p1", Info := sampleInfo } }

/-- A key-provisioning request for the device `abc123`. -/
def sampleProvision : GinContext Unit :=
  { headers := [("X-Device-ID", "abc123")], bindJSON := none }

/-- A heartbeat request for the device `abc123`. -/
def sampleHeartbeat : GinContext HeartbeatRequest :=
  { headers := [("X-Device-ID", "abc123")],
    bindJSON := some
      { Geo := { IP := "10.0.0.2", City := "d", Region := "s", Country := "k" },
        Uptime := "3h", Mem := { Total := 8, Used := 4, Proc := 1 }, Nonce := "n1" } }

/-- A key submission for the device `abc123` with wrapped key `W`. -/
def sampleSubmit : GinContext KeyExfiltrationRequest :=
  { headers := [("X-Device-ID", "abc123"), ("X-Client-Version", "1.0"), ("R-Type", "init")],
    bindJSON := some
      { DeviceId := "abc123", Timestamp := none,
        Data := some [("wrappedKey", AnyValue.string "W")] } }

/-- A key submission for the device `abc123` whose `wrappedKey` is a number. -/
def sampleBadSubmit : GinContext KeyExfiltrationRequest :=
  { headers := [("X-Device-ID", "abc123")],
    bindJSON := some
      { DeviceId := "abc123", Timestamp := none,
        Data := some [("wrappedKey", AnyValue.number 7)] } }

/-- The client after `abc123` registered in database `august`. -/
def registeredClient : MongoClient :=
  (HandleDeviceRegistration "august" emptyClient sampleRegister (sampleEnv 100 1)).2

/-- The client after `abc123` registered and was provisioned with keys. -/
def provisionedClient : MongoClient :=
  (HandlerRSAGeneration sampleCrypto "august" registeredClient sampleProvision
    (sampleEnv 200 2)).2

/-- The client after `abc123` registered, was provisioned with keys and submitted the
wrapped key `W`. -/
def wrappedClient : MongoClient :=
  (HandleKeyExfiltration "august" provisionedClient sampleSubmit (sampleEnv 400 9)).2

/-! ## Relations used to state the invariants -/

/-- How a Device after a step relates to the same Device before it: same `deviceId` and
`_id`, counters not smaller, `createdAt` unchanged. -/
def Evolves (d d1 : Device) : Prop :=
  d1.DeviceID = d.DeviceID ∧ d1.ID = d.ID ∧ d.HeartbeatCount ≤ d1.HeartbeatCount ∧
    d.ConnectionCount ≤ d1.ConnectionCount ∧ d1.CreatedAt = d.CreatedAt

/-- An update document, used with the filter `{deviceId: deviceID}`, under which a
matching document evolves and an upserted document carries the filter's `deviceId`. -/
def GoodUpdate (deviceID : String) (u : Update) : Prop :=
  (∀ d, d.DeviceID = deviceID → Evolves d (u.inc (u.set d))) ∧
  ∀ oid, (u.inc (u.setOnInsert (u.set (blankDevice oid deviceID)))).DeviceID = deviceID

/-- A device collection after a handler run: as before, or after one `UpdateOne` with a
good update document. -/
def CollStep (coll coll1 : List Device) : Prop :=
  coll1 = coll ∨ ∃ deviceID u upsert oid, GoodUpdate deviceID u ∧
    coll1 = applyUpdateOne coll deviceID u upsert oid

/-! ## Basic facts about the helpers and the store -/

theorem GetHeader_eq_empty_iff {β : Type} (gctx : GinContext β) (key : String) :
    GetHeader gctx key = "" ↔
      gctx.headers.lookup key = none ∨ gctx.headers.lookup key = some "" := by
  unfold GetHeader
  cases h : gctx.headers.lookup key with
  | none => simp
  | some v => simp

theorem ValidateDeviceID_missing {β : Type} (gctx : GinContext β)
    (h : GetHeader gctx "X-Device-ID" = "") :
    ValidateDeviceID gctx = .error (JSON StatusBadRequest (Body.error ErrorResponse)) := by
  simp [ValidateDeviceID, h]

theorem ValidateDeviceID_present {β : Type} (gctx : GinContext β) (deviceID : String)
    (h : GetHeader gctx "X-Device-ID" = deviceID) (hid : deviceID ≠ "") :
    ValidateDeviceID gctx = .ok deviceID := by
  simp [ValidateDeviceID, h, hid]

theorem setDevices_same (client : MongoClient) (dbName : String) :
    setDevices client dbName (client dbName).devices = client := by
  funext n
  unfold setDevices
  split
  · next h => subst h; rfl
  · rfl

theorem setDevices_apply_same (client : MongoClient) (dbName : String) (ds : List Device) :
    setDevices client dbName ds dbName = { client dbName with devices := ds } := by
  simp [setDevices]

theorem setDevices_apply_other (client : MongoClient) (dbName n : String) (ds : List Device)
    (h : n ≠ dbName) : setDevices client dbName ds n = client n := by
  simp [setDevices, h]

theorem setWrappedKeys_apply_same (client : MongoClient) (dbName : String)
    (ks : List WrappedKeyDoc) :
    setWrappedKeys client dbName ks dbName = { client dbName with wrappedKeys := ks } := by
  simp [setWrappedKeys]

theorem setWrappedKeys_apply_other (client : MongoClient) (dbName n : String)
    (ks : List WrappedKeyDoc) (h : n ≠ dbName) :
    setWrappedKeys client dbName ks n = client n := by
  simp [setWrappedKeys, h]

theorem applyUpdateOne_absent (coll : List Device) (deviceID : String) (u : Update)
    (oid : ObjectID) (h : findOne coll deviceID = none) :
    applyUpdateOne coll deviceID u false oid = coll := by
  simp [applyUpdateOne, h]

/-- A found document splits the collection: nothing before it matches the filter. -/
theorem findOne_split (coll : List Device) (deviceID : String) (d : Device)
    (h : findOne coll deviceID = some d) :
    d.DeviceID = deviceID ∧ ∃ pre post, coll = pre ++ d :: post ∧
      ∀ x ∈ pre, x.DeviceID ≠ deviceID := by
  induction coll with
  | nil => simp [findOne] at h
  | cons a l ih =>
    unfold findOne at h ih
    rw [List.find?_cons] at h
    by_cases ha : matchesDeviceId deviceID a = true
    · rw [ha] at h
      simp only [Option.some.injEq] at h
      subst h
      refine ⟨by simpa [matchesDeviceId] using ha, [], l, rfl, ?_⟩
      simp
    · simp only [Bool.not_eq_true] at ha
      rw [ha] at h
      obtain ⟨hd, pre, post, hl, hpre⟩ := ih h
      refine ⟨hd, a :: pre, post, by simp [hl], ?_⟩
      intro x hx
      rcases List.mem_cons.mp hx with rfl | hx
      · simpa [matchesDeviceId] using ha
      · exact hpre x hx

theorem updateFirst_split (deviceID : String) (f : Device → Device) (pre post : List Device)
    (d : Device) (hd : d.DeviceID = deviceID) (hpre : ∀ x ∈ pre, x.DeviceID ≠ deviceID) :
    updateFirst (matchesDeviceId deviceID) f (pre ++ d :: post) = pre ++ f d :: post := by
  induction pre with
  | nil => simp [updateFirst, matchesDeviceId, hd]
  | cons a l ih =>
    have ha : a.DeviceID ≠ deviceID := hpre a (List.mem_cons_self _ _)
    have hl : ∀ x ∈ l, x.DeviceID ≠ deviceID := fun x hx => hpre x (List.mem_cons_of_mem _ hx)
    simp [updateFirst, matchesDeviceId, ha, ih hl]

theorem findOne_append_hit (deviceID : String) (pre post : List Device) (d : Device)
    (hd : d.DeviceID = deviceID) (hpre : ∀ x ∈ pre, x.DeviceID ≠ deviceID) :
    findOne (pre ++ d :: post) deviceID = some d := by
  induction pre with
  | nil => simp [findOne, matchesDeviceId, hd]
  | cons a l ih =>
    have ha : a.DeviceID ≠ deviceID := hpre a (List.mem_cons_self _ _)
    have hl : ∀ x ∈ l, x.DeviceID ≠ deviceID := fun x hx => hpre x (List.mem_cons_of_mem _ hx)
    have := ih hl
    unfold findOne at this ⊢
    simp [matchesDeviceId, ha]
    simpa [matchesDeviceId] using this

theorem findOne_eq_none_iff (coll : List Device) (deviceID : String) :
    findOne coll deviceID = none ↔ ∀ x ∈ coll, x.DeviceID ≠ deviceID := by
  simp [findOne, matchesDeviceId]

theorem applyUpdateOne_present (deviceID : String) (u : Update) (upsert : Bool)
    (oid : ObjectID) (pre post : List Device) (d : Device) (hd : d.DeviceID = deviceID)
    (hpre : ∀ x ∈ pre, x.DeviceID ≠ deviceID) :
    applyUpdateOne (pre ++ d :: post) deviceID u upsert oid
      = pre ++ u.inc (u.set d) :: post := by
  unfold applyUpdateOne
  rw [findOne_append_hit deviceID pre post d hd hpre]
  exact updateFirst_split deviceID _ pre post d hd hpre

theorem applyUpdateOne_insert (coll : List Device) (deviceID : String) (u : Update)
    (oid : ObjectID) (h : findOne coll deviceID = none) :
    applyUpdateOne coll deviceID u true oid
      = coll ++ [u.inc (u.setOnInsert (u.set (blankDevice oid deviceID)))] := by
  simp [applyUpdateOne, h]

/-! ## What each handler does once the identity header is present -/

theorem HandleHeartbeat_served (APP_NAME : String) (client : MongoClient)
    (gctx : GinContext HeartbeatRequest) (env : Env) (deviceID : String)
    (request : HeartbeatRequest)
    (hh : GetHeader gctx "X-Device-ID" = deviceID) (hid : deviceID ≠ "")
    (hb : gctx.bindJSON = some request) (hf : env.storageFails 0 = false) :
    HandleHeartbeat APP_NAME client gctx env
      = (JSON StatusOK (Body.status HeartbeatMsg),
          setDevices client APP_NAME
            (applyUpdateOne (client APP_NAME).devices deviceID (heartbeatUpdate request env)
              false env.newObjectID)) := by
  simp [HandleHeartbeat, ValidateDeviceID_present gctx deviceID hh hid, hb, UpdateOne, hf,
    GetDevicesCollection]

theorem HandleDeviceRegistration_served (APP_NAME : String) (client : MongoClient)
    (gctx : GinContext DeviceRegistrationRequest) (env : Env) (deviceID : String)
    (request : DeviceRegistrationRequest)
    (hh : GetHeader gctx "X-Device-ID" = deviceID) (hid : deviceID ≠ "")
    (hb : gctx.bindJSON = some request) (hf : env.storageFails 0 = false) :
    HandleDeviceRegistration APP_NAME client gctx env
      = (JSON StatusOK (Body.registration RegistrationMsg 300 10 300 2 5
            (timeUnix (timeAdd (env.now 3) (5 * Minute)))),
          setDevices client APP_NAME
            (applyUpdateOne (client APP_NAME).devices deviceID
              (registrationUpdate deviceID request env) true env.newObjectID)) := by
  simp [HandleDeviceRegistration, ValidateDeviceID_present gctx deviceID hh hid, hb,
    UpdateOne, hf, GetDevicesCollection]

theorem HandleKeyExfiltration_served (dbName : String) (client : MongoClient)
    (gctx : GinContext KeyExfiltrationRequest) (env : Env) (deviceID : String)
    (request : KeyExfiltrationRequest) (w : String) (d : Device)
    (hh : GetHeader gctx "X-Device-ID" = deviceID) (hid : deviceID ≠ "")
    (hd : findOne (client dbName).devices deviceID = some d)
    (hb : gctx.bindJSON = some request)
    (hw : wrappedKeyField request = some (AnyValue.string w)) (hne : w ≠ "")
    (hf0 : env.storageFails 0 = false) (hf1 : env.storageFails 1 = false)
    (hf2 : env.storageFails 2 = false) :
    HandleKeyExfiltration dbName client gctx env
      = (JSON StatusOK (Body.exfiltration ExfiltrationMsg
            (timeUnix (timeAdd (env.now 3) (1 * Hour)))),
          setDevices
            (setWrappedKeys client dbName
              ((client dbName).wrappedKeys ++ [keyDoc gctx env deviceID w d]))
            dbName
            (applyUpdateOne (client dbName).devices deviceID (updateDoc w env) false
              env.newObjectID)) := by
  simp [HandleKeyExfiltration, ValidateDeviceID_present gctx deviceID hh hid, hb, hw, hne,
    UpdateOne, InsertOne, FindOne, hf0, hf1, hf2, hd, GetDevicesCollection, applyInsertOne,
    setWrappedKeys_apply_same]

/-! ## The claims -/

/-- C1: a request whose `X-Device-ID` header is absent or empty gets status 400 from each
of the four handlers, whatever its body binds to, and the client (every device
collection and every ledger) is left as it was. -/
theorem missing_identity_rejected (crypto : Crypto) (APP_NAME dbName : String)
    (client : MongoClient) (env : Env) (headers : List (String × String))
    (registration : Option DeviceRegistrationRequest) (heartbeat : Option HeartbeatRequest)
    (submission : Option KeyExfiltrationRequest) (β : Type) (body : Option β)
    (h : headers.lookup "X-Device-ID" = none ∨ headers.lookup "X-Device-ID" = some "") :
    ((HandleDeviceRegistration APP_NAME client ⟨headers, registration⟩ env).1.status = 400 ∧
      (HandleDeviceRegistration APP_NAME client ⟨headers, registration⟩ env).2 = client) ∧
    ((HandlerRSAGeneration crypto APP_NAME client ⟨headers, body⟩ env).1.status = 400 ∧
      (HandlerRSAGeneration crypto APP_NAME client ⟨headers, body⟩ env).2 = client) ∧
    ((HandleHeartbeat APP_NAME client ⟨headers, heartbeat⟩ env).1.status = 400 ∧
      (HandleHeartbeat APP_NAME client ⟨headers, heartbeat⟩ env).2 = client) ∧
    ((HandleKeyExfiltration dbName client ⟨headers, submission⟩ env).1.status = 400 ∧
      (HandleKeyExfiltration dbName client ⟨headers, submission⟩ env).2 = client) := by
  have hv : ∀ (γ : Type) (b : Option γ),
      ValidateDeviceID (⟨headers, b⟩ : GinContext γ)
        = .error (JSON StatusBadRequest (Body.error ErrorResponse)) := fun γ b =>
    ValidateDeviceID_missing _ ((GetHeader_eq_empty_iff _ _).mpr h)
  simp [HandleDeviceRegistration, HandlerRSAGeneration, HandleHeartbeat,
    HandleKeyExfiltration, hv, JSON, StatusBadRequest]

theorem missing_identity_rejected_witness :
    ((HandleDeviceRegistration "august" provisionedClient
        ⟨[("R-Type", "init")], sampleRegister.bindJSON⟩ (sampleEnv 300 3)).1.status = 400 ∧
      (HandleDeviceRegistration "august" provisionedClient
        ⟨[("R-Type", "init")], sampleRegister.bindJSON⟩ (sampleEnv 300 3)).2
        = provisionedClient) ∧
    ((HandlerRSAGeneration sampleCrypto "august" provisionedClient
        ⟨[("R-Type", "init")], some ()⟩ (sampleEnv 300 3)).1.status = 400 ∧
      (HandlerRSAGeneration sampleCrypto "august" provisionedClient
        ⟨[("R-Type", "init")], some ()⟩ (sampleEnv 300 3)).2 = provisionedClient) ∧
    ((HandleHeartbeat "august" provisionedClient
        ⟨[("R-Type", "init")], sampleHeartbeat.bindJSON⟩ (sampleEnv 300 3)).1.status = 400 ∧
      (HandleHeartbeat "august" provisionedClient
        ⟨[("R-Type", "init")], sampleHeartbeat.bindJSON⟩ (sampleEnv 300 3)).2
        = provisionedClient) ∧
    ((HandleKeyExfiltration "august" provisionedClient
        ⟨[("R-Type", "init")], sampleSubmit.bindJSON⟩ (sampleEnv 300 3)).1.status = 400 ∧
      (HandleKeyExfiltration "august" provisionedClient
        ⟨[("R-Type", "init")], sampleSubmit.bindJSON⟩ (sampleEnv 300 3)).2
        = provisionedClient) :=
  missing_identity_rejected sampleCrypto "august" "august" provisionedClient (sampleEnv 300 3)
    [("R-Type", "init")] sampleRegister.bindJSON sampleHeartbeat.bindJSON
    sampleSubmit.bindJSON Unit (some ()) (Or.inl (by decide))

/-- C5: when the device collection holds no Device for the identity carried by the
request and the lookup is answered, `HandleKeyExfiltration` responds 404 whatever the
body binds to, and the client is left as it was: no ledger entry is appended and no
Device is created. -/
theorem submit_unregistered_not_found (dbName : String) (client : MongoClient)
    (gctx : GinContext KeyExfiltrationRequest) (env : Env) (deviceID : String)
    (hh : GetHeader gctx "X-Device-ID" = deviceID) (hid : deviceID ≠ "")
    (hf : env.storageFails 0 = false)
    (habsent : findOne (client dbName).devices deviceID = none) :
    (HandleKeyExfiltration dbName client gctx env).1.status = 404 ∧
    (HandleKeyExfiltration dbName client gctx env).2 = client := by
  simp [HandleKeyExfiltration, ValidateDeviceID_present gctx deviceID hh hid, FindOne, hf,
    habsent, GetDevicesCollection, JSON, StatusNotFound]

theorem submit_unregistered_not_found_witness :
    (HandleKeyExfiltration "august" emptyClient sampleSubmit (sampleEnv 400 9)).1.status
      = 404 ∧
    (HandleKeyExfiltration "august" emptyClient sampleSubmit (sampleEnv 400 9)).2
      = emptyClient :=
  submit_unregistered_not_found "august" emptyClient sampleSubmit (sampleEnv 400 9) "abc123"
    (by decide) (by decide) rfl (by decide)

/-- C6: when a Device for the identity carried by the request exists and the lookup is
answered, a body that does not bind, or whose `data.wrappedKey` is absent, is not a
string, or is the empty string, gets status 400 from `HandleKeyExfiltration`, and the
client is left as it was (no ledger entry, no change to the Device). -/
theorem submit_invalid_body_rejected (dbName : String) (client : MongoClient)
    (gctx : GinContext KeyExfiltrationRequest) (env : Env) (deviceID : String) (d : Device)
    (hh : GetHeader gctx "X-Device-ID" = deviceID) (hid : deviceID ≠ "")
    (hf : env.storageFails 0 = false)
    (hd : findOne (client dbName).devices deviceID = some d)
    (hbad : gctx.bindJSON = none ∨
      ∃ request, gctx.bindJSON = some request ∧
        (wrappedKeyField request = none ∨
          (∃ v, wrappedKeyField request = some v ∧ ∀ w, v ≠ AnyValue.string w) ∨
          wrappedKeyField request = some (AnyValue.string ""))) :
    (HandleKeyExfiltration dbName client gctx env).1.status = 400 ∧
    (HandleKeyExfiltration dbName client gctx env).2 = client := by
  have hv := ValidateDeviceID_present gctx deviceID hh hid
  rcases hbad with hb | ⟨request, hb, hw | ⟨v, hw, hv2⟩ | hw⟩
  · simp [HandleKeyExfiltration, hv, FindOne, hf, hd, GetDevicesCollection, hb, JSON,
      StatusBadRequest]
  · simp [HandleKeyExfiltration, hv, FindOne, hf, hd, GetDevicesCollection, hb, hw, JSON,
      StatusBadRequest]
  · cases v with
    | string w => exact absurd rfl (hv2 w)
    | _ =>
      simp [HandleKeyExfiltration, hv, FindOne, hf, hd, GetDevicesCollection, hb, hw, JSON,
        StatusBadRequest]
  · simp [HandleKeyExfiltration, hv, FindOne, hf, hd, GetDevicesCollection, hb, hw, JSON,
      StatusBadRequest]

theorem submit_invalid_body_rejected_witness :
    (HandleKeyExfiltration "august" provisionedClient sampleBadSubmit
      (sampleEnv 400 9)).1.status = 400 ∧
    (HandleKeyExfiltration "august" provisionedClient sampleBadSubmit (sampleEnv 400 9)).2
      = provisionedClient :=
  submit_invalid_body_rejected "august" provisionedClient sampleBadSubmit (sampleEnv 400 9)
    "abc123" ((provisionedClient "august").devices.headD (blankDevice 0 "")) (by decide)
    (by decide) rfl (by decide)
    (Or.inr ⟨_, rfl, Or.inr (Or.inl ⟨AnyValue.number 7, by decide,
      fun _ h => AnyValue.noConfusion h⟩)⟩)

/-- C9: when the device collection holds no Device for the identity carried by a
heartbeat whose body binds, and the update round-trip is answered, `HandleHeartbeat`
responds 200 with the fixed acknowledgement and the client is left as it was: the update
is not an upsert, so afterwards there is still no Device for that identity. -/
theorem heartbeat_unregistered_no_effect (APP_NAME : String) (client : MongoClient)
    (gctx : GinContext HeartbeatRequest) (env : Env) (deviceID : String)
    (request : HeartbeatRequest)
    (hh : GetHeader gctx "X-Device-ID" = deviceID) (hid : deviceID ≠ "")
    (hb : gctx.bindJSON = some request) (hf : env.storageFails 0 = false)
    (habsent : findOne (client APP_NAME).devices deviceID = none) :
    (HandleHeartbeat APP_NAME client gctx env).1.status = 200 ∧
    (HandleHeartbeat APP_NAME client gctx env).1.body = Body.status HeartbeatMsg ∧
    (HandleHeartbeat APP_NAME client gctx env).2 = client ∧
    findOne ((HandleHeartbeat APP_NAME client gctx env).2 APP_NAME).devices deviceID
      = none := by
  rw [HandleHeartbeat_served APP_NAME client gctx env deviceID request hh hid hb hf,
    applyUpdateOne_absent _ _ _ _ habsent, setDevices_same]
  exact ⟨rfl, rfl, rfl, habsent⟩

theorem heartbeat_unregistered_no_effect_witness :
    (HandleHeartbeat "august" emptyClient sampleHeartbeat (sampleEnv 400 9)).1.status = 200 ∧
    (HandleHeartbeat "august" emptyClient sampleHeartbeat (sampleEnv 400 9)).1.body
      = Body.status HeartbeatMsg ∧
    (HandleHeartbeat "august" emptyClient sampleHeartbeat (sampleEnv 400 9)).2
      = emptyClient ∧
    findOne ((HandleHeartbeat "august" emptyClient sampleHeartbeat
      (sampleEnv 400 9)).2 "august").devices "abc123" = none :=
  heartbeat_unregistered_no_effect "august" emptyClient sampleHeartbeat (sampleEnv 400 9)
    "abc123" _ (by decide) (by decide) rfl rfl (by decide)

/-- C8: when `d` is the Device for the identity carried by a heartbeat whose body binds
to `request`, and the update round-trip is answered, `HandleHeartbeat` responds 200 and
replaces `d`, in place, by `d` with `heartbeatCount` one larger, with `geo`, `uptime`,
`memory`, `lastNonce` set to the supplied values and with `lastSeen`, `lastUpdateAt` set to
the clock; every other field of `d` (among them `connectionCount`, `createdAt` and the key
fields), every other document of the collection, the ledger and every other database are
as before. -/
theorem heartbeat_updates_device (APP_NAME : String) (client : MongoClient)
    (gctx : GinContext HeartbeatRequest) (env : Env) (deviceID : String)
    (request : HeartbeatRequest) (d : Device)
    (hh : GetHeader gctx "X-Device-ID" = deviceID) (hid : deviceID ≠ "")
    (hb : gctx.bindJSON = some request) (hf : env.storageFails 0 = false)
    (hd : findOne (client APP_NAME).devices deviceID = some d) :
    ∃ d1 : Device,
      d1 = { d with
        HeartbeatCount := d.HeartbeatCount + 1,
        Geo := request.Geo,
        Uptime := request.Uptime,
        Memory := some request.Mem,
        LastNonce := request.Nonce,
        LastSeen := env.now 0,
        LastUpdateAt := some (env.now 1) } ∧
      (HandleHeartbeat APP_NAME client gctx env).1.status = 200 ∧
      findOne ((HandleHeartbeat APP_NAME client gctx env).2 APP_NAME).devices deviceID
        = some d1 ∧
      (∃ pre post, (client APP_NAME).devices = pre ++ d :: post ∧
        ((HandleHeartbeat APP_NAME client gctx env).2 APP_NAME).devices
          = pre ++ d1 :: post) ∧
      ((HandleHeartbeat APP_NAME client gctx env).2 APP_NAME).wrappedKeys
        = (client APP_NAME).wrappedKeys ∧
      ∀ n, n ≠ APP_NAME → (HandleHeartbeat APP_NAME client gctx env).2 n = client n := by
  obtain ⟨hdid, pre, post, hsplit, hpre⟩ := findOne_split _ _ _ hd
  rw [HandleHeartbeat_served APP_NAME client gctx env deviceID request hh hid hb hf, hsplit,
    applyUpdateOne_present deviceID _ false _ pre post d hdid hpre]
  refine ⟨_, rfl, rfl, ?_, ⟨pre, post, rfl, ?_⟩, ?_, ?_⟩
  · dsimp only
    rw [setDevices_apply_same]
    exact findOne_append_hit deviceID pre post _ hdid hpre
  · dsimp only
    rw [setDevices_apply_same]
    rfl
  · dsimp only
    rw [setDevices_apply_same]
  · intro n hn
    exact setDevices_apply_other _ _ _ _ hn

theorem heartbeat_updates_device_witness :
    ∃ d1 : Device,
      d1 = { (registeredClient "august").devices.headD (blankDevice 0 "") with
        HeartbeatCount := 0 + 1,
        Geo := { IP := "10.0.0.2", City := "d", Region := "s", Country := "k" },
        Uptime := "3h",
        Memory := some { Total := 8, Used := 4, Proc := 1 },
        LastNonce := "n1",
        LastSeen := 400,
        LastUpdateAt := some 401 } ∧
      (HandleHeartbeat "august" registeredClient sampleHeartbeat
        (sampleEnv 400 9)).1.status = 200 ∧
      findOne ((HandleHeartbeat "august" registeredClient sampleHeartbeat
        (sampleEnv 400 9)).2 "august").devices "abc123" = some d1 ∧
      (∃ pre post, (registeredClient "august").devices
          = pre ++ (registeredClient "august").devices.headD (blankDevice 0 "") :: post ∧
        ((HandleHeartbeat "august" registeredClient sampleHeartbeat
          (sampleEnv 400 9)).2 "august").devices = pre ++ d1 :: post) ∧
      ((HandleHeartbeat "august" registeredClient sampleHeartbeat
        (sampleEnv 400 9)).2 "august").wrappedKeys = (registeredClient "august").wrappedKeys ∧
      ∀ n, n ≠ "august" →
        (HandleHeartbeat "august" registeredClient sampleHeartbeat (sampleEnv 400 9)).2 n
          = registeredClient n :=
  heartbeat_updates_device "august" registeredClient sampleHeartbeat (sampleEnv 400 9)
    "abc123" _ ((registeredClient "august").devices.headD (blankDevice 0 "")) (by decide)
    (by decide) rfl rfl (by decide)

/-- C7: when `d` is the Device for the identity carried by a submission whose
`data.wrappedKey` is the non-empty string `w`, and the three storage round-trips are
answered, `HandleKeyExfiltration` responds 200; the ledger becomes the previous ledger
followed by exactly one new entry, whose `deviceId` is the header value, whose `wrappedKey`
is `w`, whose `clientVersion` and `requestType` are the `X-Client-Version` and `R-Type`
header values and whose `associatedTo` is the `_id` of `d`; and `d` is replaced, in place,
by `d` with `wrappedAes` set to `w` and `lastSeen` set to the clock, every other field,
every other document and every other database being as before. -/
theorem submit_appends_and_caches (dbName : String) (client : MongoClient)
    (gctx : GinContext KeyExfiltrationRequest) (env : Env) (deviceID : String)
    (request : KeyExfiltrationRequest) (w : String) (d : Device)
    (hh : GetHeader gctx "X-Device-ID" = deviceID) (hid : deviceID ≠ "")
    (hd : findOne (client dbName).devices deviceID = some d)
    (hb : gctx.bindJSON = some request)
    (hw : wrappedKeyField request = some (AnyValue.string w)) (hne : w ≠ "")
    (hf0 : env.storageFails 0 = false) (hf1 : env.storageFails 1 = false)
    (hf2 : env.storageFails 2 = false) :
    ∃ (entry : WrappedKeyDoc) (d1 : Device),
      (HandleKeyExfiltration dbName client gctx env).1.status = 200 ∧
      ((HandleKeyExfiltration dbName client gctx env).2 dbName).wrappedKeys
        = (client dbName).wrappedKeys ++ [entry] ∧
      entry.DeviceID = deviceID ∧
      entry.WrappedKey = w ∧
      entry.ClientVersion = GetHeader gctx "X-Client-Version" ∧
      entry.RequestType = GetHeader gctx "R-Type" ∧
      entry.AssociatedTo = d.ID ∧
      d1 = { d with WrappedAES := some w, LastSeen := env.now 2 } ∧
      findOne ((HandleKeyExfiltration dbName client gctx env).2 dbName).devices deviceID
        = some d1 ∧
      (∃ pre post, (client dbName).devices = pre ++ d :: post ∧
        ((HandleKeyExfiltration dbName client gctx env).2 dbName).devices
          = pre ++ d1 :: post) ∧
      ∀ n, n ≠ dbName → (HandleKeyExfiltration dbName client gctx env).2 n = client n := by
  obtain ⟨hdid, pre, post, hsplit, hpre⟩ := findOne_split _ _ _ hd
  rw [HandleKeyExfiltration_served dbName client gctx env deviceID request w d hh hid hd hb
    hw hne hf0 hf1 hf2, hsplit,
    applyUpdateOne_present deviceID _ false _ pre post d hdid hpre]
  refine ⟨keyDoc gctx env deviceID w d, _, rfl, ?_, rfl, rfl, rfl, rfl, rfl, rfl, ?_,
    ⟨pre, post, rfl, ?_⟩, ?_⟩
  · dsimp only
    rw [setDevices_apply_same, setWrappedKeys_apply_same]
  · dsimp only
    rw [setDevices_apply_same]
    exact findOne_append_hit deviceID pre post _ hdid hpre
  · dsimp only
    rw [setDevices_apply_same]
    rfl
  · intro n hn
    dsimp only
    rw [setDevices_apply_other _ _ _ _ hn, setWrappedKeys_apply_other _ _ _ _ hn]

theorem submit_appends_and_caches_witness :
    ∃ (entry : WrappedKeyDoc) (d1 : Device),
      (HandleKeyExfiltration "august" provisionedClient sampleSubmit
        (sampleEnv 400 9)).1.status = 200 ∧
      ((HandleKeyExfiltration "august" provisionedClient sampleSubmit
        (sampleEnv 400 9)).2 "august").wrappedKeys
        = (provisionedClient "august").wrappedKeys ++ [entry] ∧
      entry.DeviceID = "abc123" ∧
      entry.WrappedKey = "W" ∧
      entry.ClientVersion = GetHeader sampleSubmit "X-Client-Version" ∧
      entry.RequestType = GetHeader sampleSubmit "R-Type" ∧
      entry.AssociatedTo
        = ((provisionedClient "august").devices.headD (blankDevice 0 "")).ID ∧
      d1 = { (provisionedClient "august").devices.headD (blankDevice 0 "") with
        WrappedAES := some "W", LastSeen := (sampleEnv 400 9).now 2 } ∧
      findOne ((HandleKeyExfiltration "august" provisionedClient sampleSubmit
        (sampleEnv 400 9)).2 "august").devices "abc123" = some d1 ∧
      (∃ pre post, (provisionedClient "august").devices
          = pre ++ (provisionedClient "august").devices.headD (blankDevice 0 "") :: post ∧
        ((HandleKeyExfiltration "august" provisionedClient sampleSubmit
          (sampleEnv 400 9)).2 "august").devices = pre ++ d1 :: post) ∧
      ∀ n, n ≠ "august" →
        (HandleKeyExfiltration "august" provisionedClient sampleSubmit (sampleEnv 400 9)).2 n
          = provisionedClient n :=
  submit_appends_and_caches "august" provisionedClient sampleSubmit (sampleEnv 400 9)
    "abc123" _ "W" ((provisionedClient "august").devices.headD (blankDevice 0 ""))
    (by decide) (by decide) (by decide) rfl rfl (by decide) rfl rfl rfl

/-! ### Registration -/

theorem devicesWithId_eq_nil_of_findOne (coll : List Device) (deviceID : String)
    (h : findOne coll deviceID = none) : devicesWithId coll deviceID = [] := by
  rw [findOne_eq_none_iff] at h
  simp only [devicesWithId, List.filter_eq_nil_iff]
  intro a ha
  simpa [matchesDeviceId] using h a ha

theorem findOne_of_devicesWithId (coll : List Device) (deviceID : String) (d : Device)
    (rest : List Device) (h : devicesWithId coll deviceID = d :: rest) :
    findOne coll deviceID = some d := by
  induction coll with
  | nil => simp [devicesWithId] at h
  | cons a l ih =>
    unfold devicesWithId at h ih
    unfold findOne at ih ⊢
    rw [List.filter_cons] at h
    rw [List.find?_cons]
    by_cases ha : matchesDeviceId deviceID a = true
    · rw [if_pos ha] at h
      rw [ha]
      simp only [List.cons.injEq] at h
      rw [h.1]
    · rw [if_neg ha] at h
      simp only [Bool.not_eq_true] at ha
      rw [ha]
      exact ih h

theorem devicesWithId_split (deviceID : String) (pre post : List Device) (d : Device)
    (hd : d.DeviceID = deviceID) (hpre : ∀ x ∈ pre, x.DeviceID ≠ deviceID) :
    devicesWithId (pre ++ d :: post) deviceID = d :: devicesWithId post deviceID := by
  have h1 : List.filter (matchesDeviceId deviceID) pre = [] := by
    rw [List.filter_eq_nil_iff]
    intro a ha
    simpa [matchesDeviceId] using hpre a ha
  have h2 : matchesDeviceId deviceID d = true := by simp [matchesDeviceId, hd]
  simp [devicesWithId, List.filter_append, h1, List.filter_cons, h2]

/-- Registering an identity that has no Device inserts one document for it. -/
theorem registration_inserts (coll : List Device) (deviceID : String)
    (request : DeviceRegistrationRequest) (env : Env) (oid : ObjectID)
    (h : findOne coll deviceID = none) :
    ∃ d1, devicesWithId
        (applyUpdateOne coll deviceID (registrationUpdate deviceID request env) true oid)
        deviceID = [d1] ∧
      d1.ConnectionCount = 1 ∧ d1.CreatedAt = env.now 2 ∧ d1.HeartbeatCount = 0 := by
  rw [applyUpdateOne_insert _ _ _ _ h]
  refine ⟨(registrationUpdate deviceID request env).inc
    ((registrationUpdate deviceID request env).setOnInsert
      ((registrationUpdate deviceID request env).set (blankDevice oid deviceID))),
    ?_, ?_, ?_, ?_⟩
  · have := devicesWithId_split deviceID coll []
      ((registrationUpdate deviceID request env).inc
        ((registrationUpdate deviceID request env).setOnInsert
          ((registrationUpdate deviceID request env).set (blankDevice oid deviceID))))
      rfl ((findOne_eq_none_iff _ _).mp h)
    rw [this]
    simp [devicesWithId]
  · simp [registrationUpdate, deviceDoc, blankDevice]
  · simp [registrationUpdate]
  · simp [registrationUpdate]

/-- Registering an identity whose only Device is `d` rewrites `d`: `connectionCount`
grows by one, `createdAt` and `heartbeatCount` stay. -/
theorem registration_rewrites (coll : List Device) (deviceID : String)
    (request : DeviceRegistrationRequest) (env : Env) (oid : ObjectID) (d : Device)
    (h : devicesWithId coll deviceID = [d]) :
    ∃ d1, devicesWithId
        (applyUpdateOne coll deviceID (registrationUpdate deviceID request env) true oid)
        deviceID = [d1] ∧
      d1.ConnectionCount = d.ConnectionCount + 1 ∧ d1.CreatedAt = d.CreatedAt ∧
      d1.HeartbeatCount = d.HeartbeatCount := by
  obtain ⟨hdid, pre, post, hsplit, hpre⟩ :=
    findOne_split _ _ _ (findOne_of_devicesWithId coll deviceID d [] h)
  subst hsplit
  rw [devicesWithId_split deviceID pre post d hdid hpre] at h
  simp only [List.cons.injEq, true_and] at h
  rw [applyUpdateOne_present deviceID _ true oid pre post d hdid hpre]
  refine ⟨(registrationUpdate deviceID request env).inc
    ((registrationUpdate deviceID request env).set d), ?_, ?_, ?_, ?_⟩
  · rw [devicesWithId_split deviceID pre post _ rfl hpre, h]
  · simp [registrationUpdate, deviceDoc]
  · simp [registrationUpdate, deviceDoc]
  · simp [registrationUpdate, deviceDoc]

/-- Further registrations of an identity whose only Device is `d`. -/
theorem registerAll_existing (APP_NAME deviceID : String) (hid : deviceID ≠ "")
    (calls : List (GinContext DeviceRegistrationRequest × Env))
    (hwf : ∀ c ∈ calls, GetHeader c.1 "X-Device-ID" = deviceID ∧
      (∃ request, c.1.bindJSON = some request) ∧ c.2.storageFails 0 = false) :
    ∀ (client : MongoClient) (d : Device),
      devicesWithId (client APP_NAME).devices deviceID = [d] →
      ∃ d1, devicesWithId ((registerAll APP_NAME client calls) APP_NAME).devices deviceID
          = [d1] ∧
        d1.ConnectionCount = d.ConnectionCount + calls.length ∧
        d1.CreatedAt = d.CreatedAt ∧ d1.HeartbeatCount = d.HeartbeatCount := by
  induction calls with
  | nil => intro client d h; exact ⟨d, h, by simp, rfl, rfl⟩
  | cons c rest ih =>
    intro client d h
    obtain ⟨hh, ⟨request, hb⟩, hf⟩ := hwf c (List.mem_cons_self _ _)
    obtain ⟨d1, h1, hc1, ht1, hb1⟩ :=
      registration_rewrites _ deviceID request c.2 c.2.newObjectID d h
    have hrest := ih (fun x hx => hwf x (List.mem_cons_of_mem _ hx))
      (HandleDeviceRegistration APP_NAME client c.1 c.2).2 d1
      (by
        rw [HandleDeviceRegistration_served APP_NAME client c.1 c.2 deviceID request hh hid
          hb hf]
        dsimp only
        rw [setDevices_apply_same]
        exact h1)
    obtain ⟨d2, h2, hc2, ht2, hb2⟩ := hrest
    refine ⟨d2, h2, ?_, ?_, ?_⟩
    · rw [hc2, hc1]
      simp only [List.length_cons]
      push_cast
      ring
    · rw [ht2, ht1]
    · rw [hb2, hb1]

/-- C2: for a non-empty `deviceID`, `n ≥ 1` and `n` registration requests carrying that
identity, each with a body that binds and an answered storage round-trip, served one after
another on a collection that holds no Device for `deviceID`: afterwards exactly one
document has that `deviceId`, its `connectionCount` is `n`, its `createdAt` is the value
the first call set, and its `heartbeatCount` is 0. -/
theorem register_n_times (APP_NAME deviceID : String) (client : MongoClient) (n : Nat)
    (calls : List (GinContext DeviceRegistrationRequest × Env))
    (hid : deviceID ≠ "") (hn : 1 ≤ n) (hlen : calls.length = n)
    (hwf : ∀ c ∈ calls, GetHeader c.1 "X-Device-ID" = deviceID ∧
      (∃ request, c.1.bindJSON = some request) ∧ c.2.storageFails 0 = false)
    (habsent : findOne (client APP_NAME).devices deviceID = none) :
    ∃ d first,
      devicesWithId ((registerAll APP_NAME client calls) APP_NAME).devices deviceID = [d] ∧
      d.ConnectionCount = n ∧
      calls.head? = some first ∧ d.CreatedAt = first.2.now 2 ∧
      d.HeartbeatCount = 0 := by
  cases calls with
  | nil => simp at hlen; omega
  | cons c rest =>
    obtain ⟨hh, ⟨request, hb⟩, hf⟩ := hwf c (List.mem_cons_self _ _)
    obtain ⟨d1, h1, hc1, ht1, hb1⟩ :=
      registration_inserts _ deviceID request c.2 c.2.newObjectID habsent
    obtain ⟨d2, h2, hc2, ht2, hb2⟩ :=
      registerAll_existing APP_NAME deviceID hid rest
        (fun x hx => hwf x (List.mem_cons_of_mem _ hx))
        (HandleDeviceRegistration APP_NAME client c.1 c.2).2 d1
        (by
          rw [HandleDeviceRegistration_served APP_NAME client c.1 c.2 deviceID request hh hid
            hb hf]
          dsimp only
          rw [setDevices_apply_same]
          exact h1)
    refine ⟨d2, c, h2, ?_, rfl, ?_, ?_⟩
    · rw [hc2, hc1, ← hlen]
      simp only [List.length_cons]
      push_cast
      ring
    · rw [ht2, ht1]
    · rw [hb2, hb1]

theorem register_n_times_witness :
    ∃ d first,
      devicesWithId ((registerAll "august" emptyClient
        [(sampleRegister, sampleEnv 100 1), (sampleRegister, sampleEnv 300 3)])
        "august").devices "abc123" = [d] ∧
      d.ConnectionCount = (2 : Nat) ∧
      [(sampleRegister, sampleEnv 100 1), (sampleRegister, sampleEnv 300 3)].head?
        = some first ∧
      d.CreatedAt = first.2.now 2 ∧
      d.HeartbeatCount = 0 :=
  register_n_times "august" "abc123" emptyClient 2
    [(sampleRegister, sampleEnv 100 1), (sampleRegister, sampleEnv 300 3)]
    (by decide) (by decide) rfl
    (by
      intro c hc
      simp only [List.mem_cons, List.mem_singleton, List.not_mem_nil, or_false] at hc
      rcases hc with rfl | rfl
      · exact ⟨by decide, ⟨_, rfl⟩, rfl⟩
      · exact ⟨by decide, ⟨_, rfl⟩, rfl⟩)
    (by decide)

/-- C3 (refuted as stated): on a store in which the Device of `abc123` holds provisioned
`publicKey` and `privateKey` values and the cached wrapped key `W`, a registration for
`abc123` is answered 200 and leaves the three fields empty, not as they were. -/
theorem register_preserves_keys_counterexample :
    (findOne (wrappedClient "august").devices "abc123").map
        (fun d => (d.PublicKey, d.PrivateKey, d.WrappedAES))
      = some ("RSA PUBLIC KEYJR", "RSA PRIVATE KEYJRX", some "W") ∧
    (HandleDeviceRegistration "august" wrappedClient sampleRegister
      (sampleEnv 500 5)).1.status = 200 ∧
    (findOne ((HandleDeviceRegistration "august" wrappedClient sampleRegister
        (sampleEnv 500 5)).2 "august").devices "abc123").map
        (fun d => (d.PublicKey, d.PrivateKey, d.WrappedAES))
      = some ("", "", some "") := by
  decide

/-- C3 (as amended): a successful registration leaves the Device of the identity with
`publicKey`, `privateKey` and `wrappedAes` equal to the empty string, whether the Device
was created by the call or existed before it with other values in these fields. -/
theorem register_resets_key_fields (APP_NAME : String) (client : MongoClient)
    (gctx : GinContext DeviceRegistrationRequest) (env : Env) (deviceID : String)
    (request : DeviceRegistrationRequest)
    (hh : GetHeader gctx "X-Device-ID" = deviceID) (hid : deviceID ≠ "")
    (hb : gctx.bindJSON = some request) (hf : env.storageFails 0 = false) :
    (HandleDeviceRegistration APP_NAME client gctx env).1.status = 200 ∧
    ∃ d1, findOne ((HandleDeviceRegistration APP_NAME client gctx env).2 APP_NAME).devices
        deviceID = some d1 ∧
      d1.PublicKey = "" ∧ d1.PrivateKey = "" ∧ d1.WrappedAES = some "" := by
  rw [HandleDeviceRegistration_served APP_NAME client gctx env deviceID request hh hid hb hf]
  refine ⟨rfl, ?_⟩
  dsimp only
  rw [setDevices_apply_same]
  cases hfind : findOne (client APP_NAME).devices deviceID with
  | none =>
    rw [applyUpdateOne_insert _ _ _ _ hfind]
    exact ⟨_, findOne_append_hit deviceID _ [] _ rfl ((findOne_eq_none_iff _ _).mp hfind),
      rfl, rfl, rfl⟩
  | some d =>
    obtain ⟨hdid, pre, post, hsplit, hpre⟩ := findOne_split _ _ _ hfind
    rw [hsplit, applyUpdateOne_present deviceID _ true _ pre post d hdid hpre]
    exact ⟨_, findOne_append_hit deviceID pre post _ rfl hpre, rfl, rfl, rfl⟩

theorem register_resets_key_fields_witness :
    (HandleDeviceRegistration "august" wrappedClient sampleRegister
      (sampleEnv 500 5)).1.status = 200 ∧
    ∃ d1, findOne ((HandleDeviceRegistration "august" wrappedClient sampleRegister
        (sampleEnv 500 5)).2 "august").devices "abc123" = some d1 ∧
      d1.PublicKey = "" ∧ d1.PrivateKey = "" ∧ d1.WrappedAES = some "" :=
  register_resets_key_fields "august" wrappedClient sampleRegister (sampleEnv 500 5) "abc123"
    _ (by decide) (by decide) rfl rfl

/-! ### Key provisioning -/

/-- A 200 response of `HandlerRSAGeneration` pins down the whole run. -/
theorem HandlerRSAGeneration_ok {β : Type} (crypto : Crypto) (APP_NAME : String)
    (client : MongoClient) (gctx : GinContext β) (env : Env)
    (h : (HandlerRSAGeneration crypto APP_NAME client gctx env).1.status = 200) :
    ∃ privateKey P, GetHeader gctx "X-Device-ID" ≠ "" ∧
      env.generatedKey = some privateKey ∧ crypto.validate privateKey = true ∧
      MarshalPublicKeyToPEM crypto privateKey.PublicKey = some P ∧
      env.storageFails 0 = false ∧
      HandlerRSAGeneration crypto APP_NAME client gctx env
        = (Data StatusOK "application/x-pem-file" P,
            setDevices client APP_NAME
              (applyUpdateOne (client APP_NAME).devices (GetHeader gctx "X-Device-ID")
                (keyUpdate P (MarshalPrivateKeyToPEM crypto privateKey) env) false
                env.newObjectID)) := by
  by_cases hid : GetHeader gctx "X-Device-ID" = ""
  · simp [HandlerRSAGeneration, ValidateDeviceID_missing gctx hid, JSON,
      StatusBadRequest] at h
  have hv := ValidateDeviceID_present gctx _ rfl hid
  cases hk : env.generatedKey with
  | none =>
    simp [HandlerRSAGeneration, hv, GenerateRSAKeyPair, hk, JSON,
      StatusInternalServerError] at h
  | some privateKey =>
    cases hval : crypto.validate privateKey with
    | false =>
      simp [HandlerRSAGeneration, hv, GenerateRSAKeyPair, hk, hval, JSON,
        StatusInternalServerError] at h
    | true =>
      cases hm : MarshalPublicKeyToPEM crypto privateKey.PublicKey with
      | none =>
        simp [HandlerRSAGeneration, hv, GenerateRSAKeyPair, hk, hval, hm, JSON,
          StatusInternalServerError] at h
      | some P =>
        cases hf : env.storageFails 0 with
        | true =>
          simp [HandlerRSAGeneration, hv, GenerateRSAKeyPair, hk, hval, hm, UpdateOne, hf,
            JSON, StatusInternalServerError] at h
        | false =>
          refine ⟨privateKey, P, hid, rfl, hval, hm, rfl, ?_⟩
          simp [HandlerRSAGeneration, hv, GenerateRSAKeyPair, hk, hval, hm, UpdateOne, hf,
            GetDevicesCollection]

/-- C4 (refuted as stated): on the empty store, `HandlerRSAGeneration` for `abc123`
responds 200 with a public-key body, and afterwards the device collection holds no Device
for `abc123`: the generated keypair is stored nowhere. -/
theorem provision_keys_counterexample :
    (HandlerRSAGeneration sampleCrypto "august" emptyClient sampleProvision
      (sampleEnv 200 2)).1.status = 200 ∧
    (HandlerRSAGeneration sampleCrypto "august" emptyClient sampleProvision
      (sampleEnv 200 2)).1.body = Body.data "RSA PUBLIC KEYJR" ∧
    findOne ((HandlerRSAGeneration sampleCrypto "august" emptyClient sampleProvision
      (sampleEnv 200 2)).2 "august").devices "abc123" = none := by
  decide

/-- C4 (as amended): if `HandlerRSAGeneration` responds 200 with body `P`, then `P` is the
PEM encoding of the public half of the key generated in the call, the response is that
encoding under the key-file content type and is the same for every valid key with this
public half; and if the collection held a Device `d` for the identity before the call,
afterwards that Device is `d` with `publicKey` equal to `P`, `privateKey` equal to the PEM
encoding of the private half of the same key and `lastKeyUpdate` set to the clock, while
if it held none the client is left as it was and still holds none. -/
theorem provision_keys_response {β : Type} (crypto : Crypto) (APP_NAME : String)
    (client : MongoClient) (gctx : GinContext β) (env : Env) (deviceID P : String)
    (hh : GetHeader gctx "X-Device-ID" = deviceID)
    (hs : (HandlerRSAGeneration crypto APP_NAME client gctx env).1.status = 200)
    (hP : (HandlerRSAGeneration crypto APP_NAME client gctx env).1.body = Body.data P) :
    ∃ privateKey, env.generatedKey = some privateKey ∧
      MarshalPublicKeyToPEM crypto privateKey.PublicKey = some P ∧
      (HandlerRSAGeneration crypto APP_NAME client gctx env).1
        = Data 200 "application/x-pem-file" P ∧
      (∀ other, other.PublicKey = privateKey.PublicKey → crypto.validate other = true →
        (HandlerRSAGeneration crypto APP_NAME client gctx
          { env with generatedKey := some other }).1
          = (HandlerRSAGeneration crypto APP_NAME client gctx env).1) ∧
      (∀ d, findOne (client APP_NAME).devices deviceID = some d →
        findOne ((HandlerRSAGeneration crypto APP_NAME client gctx env).2 APP_NAME).devices
            deviceID
          = some { d with
              PublicKey := P,
              PrivateKey := MarshalPrivateKeyToPEM crypto privateKey,
              LastKeyUpdate := some (env.now 0) }) ∧
      (findOne (client APP_NAME).devices deviceID = none →
        (HandlerRSAGeneration crypto APP_NAME client gctx env).2 = client ∧
        findOne ((HandlerRSAGeneration crypto APP_NAME client gctx env).2 APP_NAME).devices
          deviceID = none) := by
  obtain ⟨privateKey, Q, hid, hk, hval, hm, hf, hrun⟩ :=
    HandlerRSAGeneration_ok crypto APP_NAME client gctx env hs
  rw [hrun] at hP ⊢
  have hQ : Q = P := by simpa [Data] using hP
  subst hQ
  rw [hh] at hid
  have hv := ValidateDeviceID_present gctx deviceID hh hid
  refine ⟨privateKey, hk, hm, rfl, ?_, ?_, ?_⟩
  · intro other hpub hvalid
    simp [HandlerRSAGeneration, hv, GenerateRSAKeyPair, hvalid, hpub, hm, UpdateOne, hf]
  · intro d hd
    obtain ⟨hdid, pre, post, hsplit, hpre⟩ := findOne_split _ _ _ hd
    dsimp only
    rw [setDevices_apply_same, hh, hsplit,
      applyUpdateOne_present deviceID _ false _ pre post d hdid hpre]
    exact findOne_append_hit deviceID pre post _ hdid hpre
  · intro habsent
    dsimp only
    rw [hh, applyUpdateOne_absent _ _ _ _ habsent, setDevices_same]
    exact ⟨rfl, habsent⟩

theorem provision_keys_response_witness :
    ∃ privateKey, (sampleEnv 200 2).generatedKey = some privateKey ∧
      MarshalPublicKeyToPEM sampleCrypto privateKey.PublicKey = some "RSA PUBLIC KEYJR" ∧
      (HandlerRSAGeneration sampleCrypto "august" registeredClient sampleProvision
        (sampleEnv 200 2)).1 = Data 200 "application/x-pem-file" "RSA PUBLIC KEYJR" ∧
      (∀ other, other.PublicKey = privateKey.PublicKey → sampleCrypto.validate other = true →
        (HandlerRSAGeneration sampleCrypto "august" registeredClient sampleProvision
          { sampleEnv 200 2 with generatedKey := some other }).1
          = (HandlerRSAGeneration sampleCrypto "august" registeredClient sampleProvision
              (sampleEnv 200 2)).1) ∧
      (∀ d, findOne (registeredClient "august").devices "abc123" = some d →
        findOne ((HandlerRSAGeneration sampleCrypto "august" registeredClient sampleProvision
            (sampleEnv 200 2)).2 "august").devices "abc123"
          = some { d with
              PublicKey := "RSA PUBLIC KEYJR",
              PrivateKey := MarshalPrivateKeyToPEM sampleCrypto privateKey,
              LastKeyUpdate := some ((sampleEnv 200 2).now 0) }) ∧
      (findOne (registeredClient "august").devices "abc123" = none →
        (HandlerRSAGeneration sampleCrypto "august" registeredClient sampleProvision
          (sampleEnv 200 2)).2 = registeredClient ∧
        findOne ((HandlerRSAGeneration sampleCrypto "august" registeredClient sampleProvision
          (sampleEnv 200 2)).2 "august").devices "abc123" = none) :=
  provision_keys_response sampleCrypto "august" registeredClient sampleProvision
    (sampleEnv 200 2) "abc123" "RSA PUBLIC KEYJR" (by decide) (by decide) (by decide)

/-! ### The invariants -/

theorem Evolves.refl (d : Device) : Evolves d d :=
  ⟨rfl, rfl, le_refl _, le_refl _, rfl⟩

theorem keyUpdate_good (deviceID publicKeyPEM privateKeyPEM : String) (env : Env) :
    GoodUpdate deviceID (keyUpdate publicKeyPEM privateKeyPEM env) := by
  refine ⟨fun d _ => ?_, fun oid => rfl⟩
  exact ⟨rfl, rfl, le_refl _, le_refl _, rfl⟩

theorem heartbeatUpdate_good (deviceID : String) (request : HeartbeatRequest) (env : Env) :
    GoodUpdate deviceID (heartbeatUpdate request env) := by
  refine ⟨fun d _ => ?_, fun oid => rfl⟩
  refine ⟨rfl, rfl, ?_, le_refl _, rfl⟩
  simp [heartbeatUpdate]

theorem updateDoc_good (deviceID wrappedKey : String) (env : Env) :
    GoodUpdate deviceID (updateDoc wrappedKey env) := by
  refine ⟨fun d _ => ?_, fun oid => rfl⟩
  exact ⟨rfl, rfl, le_refl _, le_refl _, rfl⟩

theorem registrationUpdate_good (deviceID : String) (request : DeviceRegistrationRequest)
    (env : Env) : GoodUpdate deviceID (registrationUpdate deviceID request env) := by
  refine ⟨fun d hd => ?_, fun oid => rfl⟩
  refine ⟨hd.symm, rfl, le_refl _, ?_, rfl⟩
  simp [registrationUpdate, deviceDoc]

theorem CollStep.exists_evolved {coll coll1 : List Device} (h : CollStep coll coll1)
    (d : Device) (hd : d ∈ coll) : ∃ d1, d1 ∈ coll1 ∧ Evolves d d1 := by
  rcases h with rfl | ⟨deviceID, u, upsert, oid, hu, rfl⟩
  · exact ⟨d, hd, Evolves.refl d⟩
  · cases hfind : findOne coll deviceID with
    | none =>
      refine ⟨d, ?_, Evolves.refl d⟩
      cases upsert with
      | false => rw [applyUpdateOne_absent _ _ _ _ hfind]; exact hd
      | true =>
        rw [applyUpdateOne_insert _ _ _ _ hfind]
        exact List.mem_append_left _ hd
    | some d0 =>
      obtain ⟨hdid, pre, post, hsplit, hpre⟩ := findOne_split _ _ _ hfind
      subst hsplit
      rw [applyUpdateOne_present deviceID u upsert oid pre post d0 hdid hpre]
      rcases List.mem_append.mp hd with hd | hd
      · exact ⟨d, List.mem_append_left _ hd, Evolves.refl d⟩
      · rcases List.mem_cons.mp hd with rfl | hd
        · exact ⟨_, List.mem_append_right _ (List.mem_cons_self _ _), hu.1 d hdid⟩
        · exact ⟨d, List.mem_append_right _ (List.mem_cons_of_mem _ hd), Evolves.refl d⟩

theorem CollStep.unique {coll coll1 : List Device} (h : CollStep coll coll1)
    (hu : UniqueDeviceIds coll) : UniqueDeviceIds coll1 := by
  rcases h with rfl | ⟨deviceID, u, upsert, oid, hgood, rfl⟩
  · exact hu
  · cases hfind : findOne coll deviceID with
    | none =>
      cases upsert with
      | false => rw [applyUpdateOne_absent _ _ _ _ hfind]; exact hu
      | true =>
        rw [applyUpdateOne_insert _ _ _ _ hfind]
        unfold UniqueDeviceIds at hu ⊢
        rw [List.map_append, List.nodup_append]
        refine ⟨hu, by simp, ?_⟩
        intro x hx hx1
        simp only [List.map_cons, List.map_nil, List.mem_singleton] at hx1
        rw [hgood.2 oid] at hx1
        obtain ⟨y, hy, rfl⟩ := List.mem_map.mp hx
        exact (findOne_eq_none_iff _ _).mp hfind y hy hx1
    | some d0 =>
      obtain ⟨hdid, pre, post, hsplit, hpre⟩ := findOne_split _ _ _ hfind
      subst hsplit
      rw [applyUpdateOne_present deviceID u upsert oid pre post d0 hdid hpre]
      unfold UniqueDeviceIds at hu ⊢
      have hsame : (u.inc (u.set d0)).DeviceID = d0.DeviceID := (hgood.1 d0 hdid).1
      simpa [List.map_append, hsame] using hu

theorem collStep_setDevices (client : MongoClient) (dbName deviceID : String) (u : Update)
    (upsert : Bool) (oid : ObjectID) (hu : GoodUpdate deviceID u) (n : String) :
    CollStep (client n).devices
      (setDevices client dbName
        (applyUpdateOne (client dbName).devices deviceID u upsert oid) n).devices := by
  by_cases hn : n = dbName
  · subst hn
    rw [setDevices_apply_same]
    exact Or.inr ⟨deviceID, u, upsert, oid, hu, rfl⟩
  · rw [setDevices_apply_other _ _ _ _ hn]
    exact Or.inl rfl

theorem setWrappedKeys_devices (client : MongoClient) (dbName : String)
    (ks : List WrappedKeyDoc) (n : String) :
    (setWrappedKeys client dbName ks n).devices = (client n).devices := by
  unfold setWrappedKeys
  split <;> rfl

theorem HandleDeviceRegistration_collStep (APP_NAME : String) (client : MongoClient)
    (gctx : GinContext DeviceRegistrationRequest) (env : Env) (n : String) :
    CollStep (client n).devices
      ((HandleDeviceRegistration APP_NAME client gctx env).2 n).devices := by
  unfold HandleDeviceRegistration
  cases ValidateDeviceID gctx with
  | error resp => exact Or.inl rfl
  | ok deviceID =>
    cases gctx.bindJSON with
    | none => exact Or.inl rfl
    | some request =>
      cases env.storageFails 0 with
      | true => exact Or.inl rfl
      | false =>
        exact collStep_setDevices client APP_NAME deviceID _ true _
          (registrationUpdate_good deviceID request env) n

theorem HandleHeartbeat_collStep (APP_NAME : String) (client : MongoClient)
    (gctx : GinContext HeartbeatRequest) (env : Env) (n : String) :
    CollStep (client n).devices ((HandleHeartbeat APP_NAME client gctx env).2 n).devices := by
  unfold HandleHeartbeat
  cases ValidateDeviceID gctx with
  | error resp => exact Or.inl rfl
  | ok deviceID =>
    cases gctx.bindJSON with
    | none => exact Or.inl rfl
    | some request =>
      cases env.storageFails 0 with
      | true => exact Or.inl rfl
      | false =>
        exact collStep_setDevices client APP_NAME deviceID _ false _
          (heartbeatUpdate_good deviceID request env) n

theorem HandlerRSAGeneration_collStep {β : Type} (crypto : Crypto) (APP_NAME : String)
    (client : MongoClient) (gctx : GinContext β) (env : Env) (n : String) :
    CollStep (client n).devices
      ((HandlerRSAGeneration crypto APP_NAME client gctx env).2 n).devices := by
  unfold HandlerRSAGeneration
  cases ValidateDeviceID gctx with
  | error resp => exact Or.inl rfl
  | ok deviceID =>
    cases GenerateRSAKeyPair crypto env with
    | none => exact Or.inl rfl
    | some privateKey =>
      dsimp only
      cases hm : MarshalPublicKeyToPEM crypto privateKey.PublicKey with
      | none => exact Or.inl rfl
      | some publicKeyPEM =>
        cases env.storageFails 0 with
        | true => exact Or.inl rfl
        | false =>
          exact collStep_setDevices client APP_NAME deviceID _ false _
            (keyUpdate_good deviceID publicKeyPEM (MarshalPrivateKeyToPEM crypto privateKey)
              env) n

theorem HandleKeyExfiltration_collStep (dbName : String) (client : MongoClient)
    (gctx : GinContext KeyExfiltrationRequest) (env : Env) (n : String) :
    CollStep (client n).devices
      ((HandleKeyExfiltration dbName client gctx env).2 n).devices := by
  unfold HandleKeyExfiltration
  cases ValidateDeviceID gctx with
  | error resp => exact Or.inl rfl
  | ok deviceID =>
    dsimp only
    cases FindOne (env.storageFails 0) (GetDevicesCollection client dbName) deviceID with
    | noDocuments => exact Or.inl rfl
    | failed => exact Or.inl rfl
    | found existingDevice =>
      cases gctx.bindJSON with
      | none => exact Or.inl rfl
      | some request =>
        dsimp only
        cases wrappedKeyField request with
        | none => exact Or.inl rfl
        | some v =>
          cases v with
          | string wrappedKey =>
            by_cases hw : wrappedKey = ""
            · simp only [hw, if_true]
              exact Or.inl rfl
            · simp only [hw, if_false]
              cases env.storageFails 1 with
              | true => exact Or.inl rfl
              | false =>
                cases env.storageFails 2 with
                | true =>
                  exact Or.inl (setWrappedKeys_devices client dbName _ n)
                | false =>
                  have h := collStep_setDevices
                    (setWrappedKeys client dbName
                      (applyInsertOne (client dbName).wrappedKeys
                        (keyDoc gctx env deviceID wrappedKey existingDevice)))
                    dbName deviceID (updateDoc wrappedKey env) false env.newObjectID
                    (updateDoc_good deviceID wrappedKey env) n
                  rw [setWrappedKeys_devices] at h
                  exact h
          | _ => exact Or.inl rfl

/-- Every handler run is a `CollStep` on the device collection of every database. -/
theorem serve_collStep (crypto : Crypto) (APP_NAME : String) (client : MongoClient)
    (call : Call) (n : String) :
    CollStep (client n).devices ((serve crypto APP_NAME client call).2 n).devices := by
  cases call with
  | register gctx env => exact HandleDeviceRegistration_collStep APP_NAME client gctx env n
  | provisionKeys gctx env =>
    exact HandlerRSAGeneration_collStep crypto APP_NAME client gctx env n
  | heartbeat gctx env => exact HandleHeartbeat_collStep APP_NAME client gctx env n
  | submitWrappedKey dbName gctx env =>
    exact HandleKeyExfiltration_collStep dbName client gctx env n

theorem reachable_unique (crypto : Crypto) (APP_NAME : String) (client : MongoClient)
    (h : Reachable crypto APP_NAME client) (n : String) :
    UniqueDeviceIds (client n).devices := by
  induction h with
  | empty => simp [UniqueDeviceIds, emptyClient]
  | serve client call _ ih => exact (serve_collStep crypto APP_NAME client call n).unique ih

theorem devicesWithId_length_le_one (coll : List Device) (deviceID : String)
    (h : UniqueDeviceIds coll) : (devicesWithId coll deviceID).length ≤ 1 := by
  induction coll with
  | nil => simp [devicesWithId]
  | cons a l ih =>
    unfold UniqueDeviceIds at h ih
    rw [List.map_cons, List.nodup_cons] at h
    unfold devicesWithId at ih ⊢
    rw [List.filter_cons]
    by_cases ha : matchesDeviceId deviceID a = true
    · rw [if_pos ha]
      have hnil : List.filter (matchesDeviceId deviceID) l = [] := by
        rw [List.filter_eq_nil_iff]
        intro x hx hxm
        apply h.1
        have h1 : a.DeviceID = deviceID := by simpa [matchesDeviceId] using ha
        have h2 : x.DeviceID = deviceID := by simpa [matchesDeviceId] using hxm
        exact List.mem_map.mpr ⟨x, hx, by rw [h1, h2]⟩
      simp [hnil]
    · rw [if_neg ha]
      exact ih h.2

/-- C10: in every client reachable from the empty one by serving calls of the four
endpoints, every device collection holds at most one Device per `deviceId`; and whatever
call is served next (any endpoint, any identity, answered with any status), every Device
present before it is present after it, with the same `deviceId` and `_id`, with
`heartbeatCount` and `connectionCount` not smaller than before and with `createdAt`
unchanged. -/
theorem reachable_invariant (crypto : Crypto) (APP_NAME : String) (client : MongoClient)
    (h : Reachable crypto APP_NAME client) :
    (∀ dbName deviceID, (devicesWithId (client dbName).devices deviceID).length ≤ 1) ∧
    ∀ (call : Call) (dbName : String) (d : Device), d ∈ (client dbName).devices →
      ∃ d1, d1 ∈ ((serve crypto APP_NAME client call).2 dbName).devices ∧
        d1.DeviceID = d.DeviceID ∧ d1.ID = d.ID ∧
        d.HeartbeatCount ≤ d1.HeartbeatCount ∧
        d.ConnectionCount ≤ d1.ConnectionCount ∧
        d1.CreatedAt = d.CreatedAt := by
  refine ⟨fun dbName deviceID => ?_, fun call dbName d hd => ?_⟩
  · exact devicesWithId_length_le_one _ _ (reachable_unique crypto APP_NAME client h dbName)
  · exact (serve_collStep crypto APP_NAME client call dbName).exists_evolved d hd

theorem reachable_invariant_witness :
    (devicesWithId (registeredClient "august").devices "abc123").length ≤ 1 ∧
    ∃ d1, d1 ∈ ((serve sampleCrypto "august" registeredClient
        (Call.heartbeat sampleHeartbeat (sampleEnv 400 9))).2 "august").devices ∧
      d1.DeviceID = ((registeredClient "august").devices.headD (blankDevice 0 "")).DeviceID ∧
      d1.ID = ((registeredClient "august").devices.headD (blankDevice 0 "")).ID ∧
      ((registeredClient "august").devices.headD (blankDevice 0 "")).HeartbeatCount
        ≤ d1.HeartbeatCount ∧
      ((registeredClient "august").devices.headD (blankDevice 0 "")).ConnectionCount
        ≤ d1.ConnectionCount ∧
      d1.CreatedAt = ((registeredClient "august").devices.headD (blankDevice 0 "")).CreatedAt :=
  ⟨(reachable_invariant sampleCrypto "august" registeredClient
      (Reachable.serve emptyClient (Call.register sampleRegister (sampleEnv 100 1))
        Reachable.empty)).1 "august" "abc123",
    (reachable_invariant sampleCrypto "august" registeredClient
      (Reachable.serve emptyClient (Call.register sampleRegister (sampleEnv 100 1))
        Reachable.empty)).2 (Call.heartbeat sampleHeartbeat (sampleEnv 400 9)) "august"
      ((registeredClient "august").devices.headD (blankDevice 0 "")) (by decide)⟩

end August
